import Mathlib

/-!
Verification development for the searchku backend (FastAPI + pgvector book
search service).  The definitions below are a shallow embedding of the parts
of the source that the specification talks about:

* app/services/file_service.py   (text extraction, PDF smart OCR, OCR loop)
* app/services/embedding_service.py (provider adapter, dimension handling)
* app/services/search_service.py (semantic / multilingual / text search)
* app/routers/pages.py           (page creation, bulk upload)

Python text is modelled as a list of characters; Python machine floats that
only ever hold exact small decimals are modelled as rationals.
-/

namespace Searchku

/-- Python text, modelled as a list of characters (one entry per code point,
matching Python string indexing and len). -/
abbrev Str := List Char

/-- The whitespace characters recognised by Python str.strip and str.split
for the ASCII range: space, tab, newline, carriage return, vertical tab,
form feed. -/
def pyIsSpace (c : Char) : Bool :=
  c = ' ' || c = '\t' || c = '\n' || c = '\r' || c = Char.ofNat 11 || c = Char.ofNat 12

/-- Python str.strip(): drop leading and trailing whitespace. -/
def pyStrip (s : Str) : Str :=
  ((s.dropWhile pyIsSpace).reverse.dropWhile pyIsSpace).reverse

/-- Length of the stripped text: the quantity computed by the Python idiom
len(s.strip()), which counts internal whitespace as well. -/
def stripLen (s : Str) : Nat := (pyStrip s).length

/-- Number of non-whitespace characters of a text (this is what the spec
calls the number of non-whitespace characters; it differs from stripLen on
texts with internal whitespace). -/
def countNonWs (s : Str) : Nat := (s.filter (fun c => !(pyIsSpace c))).length

/-- Does the first list occur as a prefix of the second (Python
str.startswith)?  The first argument is the pattern. -/
def listStartsWith : Str → Str → Bool
  | [], _ => true
  | _ :: _, [] => false
  | a :: as, b :: bs => a = b && listStartsWith as bs

/-- Does the first list occur as a contiguous subsequence of the second
(the Python expression sep in text)? -/
def containsSeq (pat : Str) : Str → Bool
  | [] => listStartsWith pat []
  | c :: rest => listStartsWith pat (c :: rest) || containsSeq pat rest

/-- Auxiliary fuel-indexed worker for pySplit.  The fuel is an upper bound
on the number of characters still to be consumed; each recursive call
consumes at least one character of the text, so fuel equal to the text
length always suffices. -/
def splitFuel (sep : Str) : Nat → Str → Str → List Str
  | _, [], acc => [acc.reverse]
  | 0, s, acc => [acc.reverse ++ s]
  | fuel + 1, c :: rest, acc =>
      if listStartsWith sep (c :: rest) then
        acc.reverse :: splitFuel sep fuel ((c :: rest).drop sep.length) []
      else
        splitFuel sep fuel rest (c :: acc)

/-- Python str.split(sep) for a fixed non-empty separator: splits at each
leftmost non-overlapping occurrence of the separator, keeping empty parts.
A call with an empty separator is a ValueError in Python and never happens
in the modelled code; it is mapped to the whole text. -/
def pySplit (s sep : Str) : List Str :=
  if sep.isEmpty then [s] else splitFuel sep s.length s []

/-- Python str.split() with no argument: split on runs of whitespace and
drop empty pieces. -/
def splitWsAux : Str → Str → List Str
  | [], acc => if acc.isEmpty then [] else [acc.reverse]
  | c :: rest, acc =>
      if pyIsSpace c then
        if acc.isEmpty then splitWsAux rest [] else acc.reverse :: splitWsAux rest []
      else
        splitWsAux rest (c :: acc)

/-- Python str.split() with no argument. -/
def pySplitWs (s : Str) : List Str := splitWsAux s []

/-- Python str.lower() on the ASCII range. -/
def pyLower (s : Str) : Str := s.map Char.toLower

/-- Python sep.join(parts). -/
def joinWith (sep : Str) : List Str → Str
  | [] => []
  | [x] => x
  | x :: y :: rest => x ++ sep ++ joinWith sep (y :: rest)

/-- Lowest index at which the pattern occurs in the text, Python
str.find (with None standing for the Python result -1). -/
def findSub (pat : Str) : Str → Option Nat
  | [] => if pat.isEmpty then some 0 else none
  | c :: rest =>
      if listStartsWith pat (c :: rest) then some 0
      else (findSub pat rest).map Nat.succ

/-- Python slice text[start:stop] for 0 <= start <= stop. -/
def pySlice (s : Str) (start stop : Nat) : Str := (s.drop start).take (stop - start)

/-! ## Text Extraction Engine (app/services/file_service.py) -/

/-- How a page's text was obtained, file_service.py smart PDF processing. -/
inductive ExtractionMethod where
  | text_extraction
  | ocr
deriving DecidableEq, Repr

/-- The non-empty stripped lines of a text, file_service.py lines 460:
lines = line.strip() for line in cleaned_text.split(newline) if line.strip(). -/
def nonEmptyLines (cleaned : Str) : List Str :=
  ((pySplit cleaned ['\n']).map pyStrip).filter (fun l => !l.isEmpty)

/-- The substantial lines: non-empty stripped lines longer than 10
characters, file_service.py line 461. -/
def substantialLines (cleaned : Str) : List Str :=
  (nonEmptyLines cleaned).filter (fun l => l.length > 10)

/-- The meaningful-text heuristic of _process_pdf_with_smart_ocr
(file_service.py lines 449-470), exactly as the code computes it:
has_meaningful_text starts as len(page_text.strip()) > 50; it is then
revoked if the substantial lines are fewer than 30 percent of the
non-empty lines, or if the first five substantial lines joined by single
spaces are shorter than 30 characters.  The comparison with the float
literal 0.3 is exact for every list length that can occur, so it is
modelled by the exact integer comparison 10 * substantial < 3 * lines. -/
def has_meaningful_text (pageText : Str) : Bool :=
  if stripLen pageText > 50 then
    let cleaned := pyStrip pageText
    let lines := nonEmptyLines cleaned
    let substantial := substantialLines cleaned
    if 10 * substantial.length < 3 * lines.length then false
    else
      let textSample := joinWith [' '] (substantial.take 5)
      if textSample.length < 30 then false else true
  else false

/-- The heuristic as claim C3 words it: more than 50 NON-WHITESPACE
characters, then the same two line-based conditions.  This differs from
has_meaningful_text, which uses the length of the stripped text and hence
counts internal whitespace. -/
def claim_meaningful_text (pageText : Str) : Bool :=
  countNonWs pageText > 50 &&
    (let cleaned := pyStrip pageText
     3 * (nonEmptyLines cleaned).length ≤ 10 * (substantialLines cleaned).length &&
       30 ≤ (joinWith [' '] ((substantialLines cleaned).take 5)).length)

/-- The claim amended minimally: the first condition counts the characters
of the stripped text (internal whitespace included), as the code does; the
rest is unchanged. -/
def amended_meaningful_text (pageText : Str) : Bool :=
  stripLen pageText > 50 &&
    (let cleaned := pyStrip pageText
     3 * (nonEmptyLines cleaned).length ≤ 10 * (substantialLines cleaned).length &&
       30 ≤ (joinWith [' '] ((substantialLines cleaned).take 5)).length)

/-- The best-of-N OCR attempt loop of _extract_text_with_ocr
(file_service.py lines 207-227).  Each list entry is one configuration's
outcome: none when pytesseract raised (the except/continue branch), some t
for raw text t.  The accumulator keeps the best raw text so far and its
stripped length; the loop breaks as soon as an attempt's stripped length
exceeds 100, after updating the best. -/
def ocr_attempt_loopA : List (Option Str) → Str → Nat → Str
  | [], best, _ => best
  | none :: rest, best, bl => ocr_attempt_loopA rest best bl
  | some t :: rest, best, bl =>
      let l := stripLen t
      let best2 := if l > bl then t else best
      let bl2 := if l > bl then l else bl
      if l > 100 then best2 else ocr_attempt_loopA rest best2 bl2

/-- The best-of-N OCR attempt loop of _process_pdf_with_smart_ocr
(file_service.py lines 521-533).  Same policy as ocr_attempt_loopA, with
the break nested inside the new-best branch. -/
def ocr_attempt_loopB : List (Option Str) → Str → Nat → Str
  | [], best, _ => best
  | none :: rest, best, bl => ocr_attempt_loopB rest best bl
  | some t :: rest, best, bl =>
      if stripLen t > bl then
        if stripLen t > 100 then t
        else ocr_attempt_loopB rest t (stripLen t)
      else ocr_attempt_loopB rest best bl

/-- The attempts actually executed before the early stop: every attempt up
to and including the first whose stripped length exceeds 100. -/
def attemptsUntilStop : List (Option Str) → List (Option Str)
  | [] => []
  | none :: rest => none :: attemptsUntilStop rest
  | some t :: rest =>
      if stripLen t > 100 then [some t] else some t :: attemptsUntilStop rest

/-- The texts of the successful attempts, in order. -/
def successTexts : List (Option Str) → List Str
  | [] => []
  | none :: rest => successTexts rest
  | some t :: rest => t :: successTexts rest

/-- First maximum by stripped length, starting from the empty text: the
result the claim describes once longest is read as longest stripped
length. -/
def bestByStripLen (l : List Str) : Str :=
  l.foldl (fun acc t => if stripLen t > stripLen acc then t else acc) []

/-- Declarative description of the OCR loop result: among the attempts run
before the early stop, the first successful text of maximal stripped
length (empty if none succeeded). -/
def spec_ocr_best (attempts : List (Option Str)) : Str :=
  bestByStripLen (successTexts (attemptsUntilStop attempts))

/-- The claim C4 loop as stated, with lengths measured in non-whitespace
characters instead of stripped length (this is NOT what the code does). -/
def claim_ocr_loop : List (Option Str) → Str → Nat → Str
  | [], best, _ => best
  | none :: rest, best, bl => claim_ocr_loop rest best bl
  | some t :: rest, best, bl =>
      if countNonWs t > bl then
        if countNonWs t > 100 then t
        else claim_ocr_loop rest t (countNonWs t)
      else claim_ocr_loop rest best bl

/-- One page of PDF processing in _process_pdf_with_smart_ocr
(file_service.py lines 442-551).  pageText is the raw text layer the PDF
library returned for the page; ocrAttempts are the outcomes of the OCR
configurations for the page image (only consulted on the OCR path); clean
is the Arabic OCR cleanup _clean_arabic_ocr_text, kept opaque.  Returns
the emitted page entry (text and extraction method), or none when the page
contributes nothing. -/
def process_pdf_page (ocrAttempts : List (Option Str)) (clean : Str → Str)
    (pageText : Str) : Option (Str × ExtractionMethod) :=
  if has_meaningful_text pageText then
    let cleanedText := pyStrip pageText
    if !cleanedText.isEmpty then some (cleanedText, ExtractionMethod.text_extraction)
    else none
  else
    let bestText := ocr_attempt_loopB ocrAttempts [] 0
    let ocrText := pyStrip bestText
    let ocrText2 := if !ocrText.isEmpty then clean ocrText else ocrText
    if !ocrText2.isEmpty && ocrText2.length > 10 then
      some (ocrText2, ExtractionMethod.ocr)
    else none

/-! ## Plain-text page splitting (process_bulk_text_upload, file_service.py
lines 612-645, non-PDF branch) -/

/-- Chunks of 1000 characters, the Python comprehension
text[i:i+chunk_size] for i in range(0, len(text), chunk_size). -/
def chunk1000 (t : Str) : List Str :=
  (List.range ((t.length + 999) / 1000)).map (fun i => (t.drop (1000 * i)).take 1000)

/-- Page candidates of a decoded non-PDF text, exactly as the code splits:
triple newline if present, else form feed if present, else double newline
if present, else 1000-character chunks. -/
def splitPageCandidates (t : Str) : List Str :=
  if containsSeq ['\n', '\n', '\n'] t then pySplit t ['\n', '\n', '\n']
  else if containsSeq [Char.ofNat 12] t then pySplit t [Char.ofNat 12]
  else
    if containsSeq ['\n', '\n'] t then pySplit t ['\n', '\n']
    else chunk1000 t

/-- The returned page list for a non-PDF text: each candidate is stripped
and kept only when non-empty and longer than 10 characters
(file_service.py lines 633-642). -/
def process_text_pages (t : Str) : List Str :=
  (splitPageCandidates t).filterMap (fun p =>
    let cleaned := pyStrip p
    if !cleaned.isEmpty && cleaned.length > 10 then some cleaned else none)

/-- The page list as claim C7 describes it: candidates by the first
applicable rule of the priority order, discarding every candidate whose
trimmed length is at most 10. -/
def claim_text_pages (t : Str) : List Str :=
  let candidates :=
    if containsSeq ['\n', '\n', '\n'] t then pySplit t ['\n', '\n', '\n']
    else if containsSeq [Char.ofNat 12] t then pySplit t [Char.ofNat 12]
    else if containsSeq ['\n', '\n'] t then pySplit t ['\n', '\n']
    else chunk1000 t
  (candidates.map pyStrip).filter (fun c => !decide (c.length ≤ 10))

/-! ## Embedding Provider Adapter (app/services/embedding_service.py) -/

/-- The embedding providers the service dispatches on. -/
inductive Provider where
  | openai
  | gemini
deriving DecidableEq, Repr

/-- Text cleaning applied by generate_embedding (line 84):
text.strip().replace(newline, space). -/
def cleanEmbedText (t : Str) : Str :=
  (pyStrip t).map (fun c => if c = '\n' then ' ' else c)

/-- The OpenAI branch _generate_openai_embedding (embedding_service.py
lines 99-153) restricted to its dimension handling: raw is the numeric
vector extracted from the provider response (none when the provider call
raised or the response could not be coerced).  A vector whose length
differs from the configured dimension is REJECTED (the function logs and
returns None); no padding or truncation happens on this path. -/
def generate_openai_embedding (dim : Nat) (raw : Option (List ℚ)) : Option (List ℚ) :=
  match raw with
  | none => none
  | some e => if e.length = dim then some e else none

/-- The Gemini branch _generate_gemini_embedding (embedding_service.py
lines 155-199): a shorter vector is right-padded with 0.0 up to the
configured dimension, a longer one is truncated to the first dim
elements. -/
def generate_gemini_embedding (dim : Nat) (raw : Option (List ℚ)) : Option (List ℚ) :=
  match raw with
  | none => none
  | some e =>
      if e.length < dim then some (e ++ List.replicate (dim - e.length) 0)
      else some (e.take dim)

/-- generate_embedding (embedding_service.py lines 69-97): clean the text,
fail on empty input without a provider call, then dispatch on the
provider. -/
def generate_embedding (prov : Provider) (dim : Nat) (text : Str)
    (raw : Option (List ℚ)) : Option (List ℚ) :=
  if (cleanEmbedText text).isEmpty then none
  else
    match prov with
    | Provider.openai => generate_openai_embedding dim raw
    | Provider.gemini => generate_gemini_embedding dim raw

/-! ## Search Engine (app/services/search_service.py) -/

/-- One row of the pages table (joined with its book for the result
fields).  Vectors are rational-valued; a page without an embedding has
none. -/
structure PageRow where
  page_id : Nat
  book_id : Nat
  page_number : Nat
  original_text : Str
  en_translation : Option Str
  id_translation : Option Str
  embedding_vector : Option (List ℚ)
deriving DecidableEq, Repr

/-- The pgvector cosine-distance operator, an external capability of the
relational store; the search logic is parametric in it. -/
abbrev DistFn := List ℚ → List ℚ → ℚ

/-- A database fetch outcome: the row set, or a raised database error
(caught by the service and degraded to an empty result). -/
inductive DbFetch (α : Type) where
  | ok (rows : α)
  | err (msg : Str)

/-- Python x or default for an optional integer argument: None and 0 are
both falsy and replaced by the default (search_service.py lines 39, 143,
144, 267). -/
def pyOrNat (x : Option Nat) (d : Nat) : Nat :=
  match x with
  | none => d
  | some v => if v = 0 then d else v

/-- Python x or default for an optional float argument: None and 0.0 are
both falsy and replaced by the default (search_service.py lines 40, 145). -/
def pyOrRat (x : Option ℚ) (d : ℚ) : ℚ :=
  match x with
  | none => d
  | some v => if v = 0 then d else v

/-- The distance of a row to the query vector under the store's operator
(only ever used on rows whose vector is present). -/
def rowDist (df : DistFn) (qv : List ℚ) (p : PageRow) : ℚ :=
  match p.embedding_vector with
  | some v => df v qv
  | none => 0

/-- Cosine similarity as the SQL computes it: 1 minus the cosine
distance. -/
def simScore (df : DistFn) (qv : List ℚ) (p : PageRow) : ℚ :=
  1 - rowDist df qv p

/-- The WHERE predicate of the semantic searches: embedding_vector IS NOT
NULL and similarity at least the threshold. -/
def qualifies (df : DistFn) (qv : List ℚ) (threshold : ℚ) (p : PageRow) : Bool :=
  p.embedding_vector.isSome && decide (threshold ≤ simScore df qv p)

/-- ORDER BY embedding_vector distance ascending, modelled by insertion
sort on the distance. -/
def orderByDist (df : DistFn) (qv : List ℚ) (rows : List PageRow) : List PageRow :=
  rows.insertionSort (fun a b => rowDist df qv a ≤ rowDist df qv b)

/-- semantic_search (search_service.py lines 18-116): defaults limit 10
and threshold 0.7 via Python or; empty result when the query embedding is
missing or the database raised; otherwise the qualifying rows ordered by
ascending distance, capped at the limit. -/
def semantic_search (df : DistFn) (dbFetch : DbFetch (List PageRow))
    (queryEmbedding : Option (List ℚ)) (limit : Option Nat)
    (similarityThreshold : Option ℚ) : List PageRow :=
  let lim := pyOrNat limit 10
  let threshold := pyOrRat similarityThreshold ((7 : ℚ) / 10)
  match queryEmbedding with
  | none => []
  | some qv =>
      match dbFetch with
      | DbFetch.err _ => []
      | DbFetch.ok rows =>
          ((orderByDist df qv (rows.filter (qualifies df qv threshold))).take lim)

/-- multilingual_search (search_service.py lines 118-247), row selection
and pagination: defaults limit 10, offset 0, threshold 0.6; the total
count is the size of the qualifying set with no LIMIT; the page of
results applies OFFSET then LIMIT to the distance-ordered qualifying
rows.  Returns (results, total_count); ([], 0) on embedding or database
failure. -/
def multilingual_search (df : DistFn) (dbFetch : DbFetch (List PageRow))
    (queryEmbedding : Option (List ℚ)) (limit offset : Option Nat)
    (similarityThreshold : Option ℚ) : List PageRow × Nat :=
  let lim := pyOrNat limit 10
  let off := pyOrNat offset 0
  let threshold := pyOrRat similarityThreshold ((3 : ℚ) / 5)
  match queryEmbedding with
  | none => ([], 0)
  | some qv =>
      match dbFetch with
      | DbFetch.err _ => ([], 0)
      | DbFetch.ok rows =>
          let matching := rows.filter (qualifies df qv threshold)
          (((orderByDist df qv matching).drop off).take lim, matching.length)

/-- Case-insensitive substring match, the ILIKE percent-query-percent
filter of text_search (wildcard-free queries). -/
def containsCI (text query : Str) : Bool :=
  containsSeq (pyLower query) (pyLower text)

/-- text_search (search_service.py lines 249-301): default limit 10,
case-insensitive substring filter on original_text, no ordering clause,
empty result when the database raised. -/
def text_search (dbFetch : DbFetch (List PageRow)) (query : Str)
    (limit : Option Nat) : List PageRow :=
  let lim := pyOrNat limit 10
  match dbFetch with
  | DbFetch.err _ => []
  | DbFetch.ok rows => (rows.filter (fun p => containsCI p.original_text query)).take lim

/-- get_similar_pages (search_service.py lines 418-496): look up the
reference page; empty result when it is absent or has no stored vector or
the database raised; otherwise every other page with a vector, ordered by
distance to the reference vector, capped at the limit (the Python default
argument is 5). -/
def get_similar_pages (df : DistFn) (dbFetch : DbFetch (List PageRow))
    (pageId : Nat) (limit : Nat := 5) : List PageRow :=
  match dbFetch with
  | DbFetch.err _ => []
  | DbFetch.ok rows =>
      match rows.find? (fun p => p.page_id = pageId) with
      | none => []
      | some refPage =>
          match refPage.embedding_vector with
          | none => []
          | some rv =>
              let others := rows.filter (fun p =>
                p.embedding_vector.isSome && !decide (p.page_id = pageId))
              ((others.insertionSort (fun a b => rowDist df rv a ≤ rowDist df rv b)).take limit)

/-! ## Snippet construction (search_service.py lines 303-416) -/

/-- _generate_snippet: the whole text when it fits; otherwise a window of
maxLength characters around the first case-insensitive occurrence of the
query (one third of the window before the match), with ellipses at
truncated ends; the first maxLength characters plus an ellipsis when the
query does not occur verbatim. -/
def generate_snippet (text query : Str) (maxLength : Nat := 200) : Str :=
  if text.length ≤ maxLength then text
  else
    match findSub (pyLower query) (pyLower text) with
    | none => text.take maxLength ++ ['.', '.', '.']
    | some queryPos =>
        let startPos := queryPos - maxLength / 3
        let endPos := min text.length (startPos + maxLength)
        let snippet := pySlice text startPos endPos
        let snippet2 := if startPos > 0 then ['.', '.', '.'] ++ snippet else snippet
        if endPos < text.length then snippet2 ++ ['.', '.', '.'] else snippet2

/-- The English stop-word list of _is_english (search_service.py line
406). -/
def englishWords : List Str :=
  [['t', 'h', 'e'], ['a', 'n', 'd'], ['o', 'r'], ['i', 'n'], ['o', 'n'],
   ['a', 't'], ['t', 'o'], ['f', 'o', 'r'], ['o', 'f'],
   ['w', 'i', 't', 'h'], ['b', 'y']]

/-- The Indonesian stop-word list of _is_indonesian (search_service.py
line 413). -/
def indonesianWords : List Str :=
  [['d', 'a', 'n'], ['a', 't', 'a', 'u'], ['y', 'a', 'n', 'g'], ['d', 'i'],
   ['k', 'e'], ['d', 'a', 'r', 'i'], ['u', 'n', 't', 'u', 'k'],
   ['d', 'e', 'n', 'g', 'a', 'n'], ['p', 'a', 'd', 'a'],
   ['a', 'd', 'a', 'l', 'a', 'h']]

/-- _is_english: more than 0.2 of the lower-cased whitespace-tokenized
words are English stop words (exact, since the float comparison with 0.2
agrees with the rational one at every word count). -/
def is_english (text : Str) : Bool :=
  let words := pySplitWs (pyLower text)
  let englishCount := (words.filter (fun w => decide (w ∈ englishWords))).length
  words.length > 0 && 5 * englishCount > words.length

/-- _is_indonesian, same heuristic with the Indonesian list. -/
def is_indonesian (text : Str) : Bool :=
  let words := pySplitWs (pyLower text)
  let indonesianCount := (words.filter (fun w => decide (w ∈ indonesianWords))).length
  words.length > 0 && 5 * indonesianCount > words.length

/-- Python truthiness of the optional translation followed by strip:
the condition en_translation and en_translation.strip(). -/
def translationUsable (t : Option Str) : Bool :=
  match t with
  | none => false
  | some s => !s.isEmpty && !(pyStrip s).isEmpty

/-- _generate_multilingual_snippet (search_service.py lines 349-402):
choose the snippet source text and its language marker by the declared or
detected query language, preferring the matching translation, then the
other translation, then the original text with no marker; then build the
snippet with the marker length subtracted from the budget and prepend the
marker. -/
def generate_multilingual_snippet (originalText : Str)
    (enTranslation idTranslation : Option Str) (query : Str)
    (queryLanguage : Option Str) (maxLength : Nat := 200) : Str :=
  let queryIsEn : Bool :=
    queryLanguage = some ['e', 'n'] ||
      (queryLanguage = none && is_english query)
  let queryIsId : Bool :=
    queryLanguage = some ['i', 'd'] ||
      (queryLanguage = none && is_indonesian query)
  let chosen : Str × Str :=
    if queryIsEn then
      if translationUsable enTranslation then
        (enTranslation.getD [], ['[', 'E', 'N', ']', ' '])
      else if translationUsable idTranslation then
        (idTranslation.getD [], ['[', 'I', 'D', ']', ' '])
      else (originalText, [])
    else if queryIsId then
      if translationUsable idTranslation then
        (idTranslation.getD [], ['[', 'I', 'D', ']', ' '])
      else if translationUsable enTranslation then
        (enTranslation.getD [], ['[', 'E', 'N', ']', ' '])
      else (originalText, [])
    else (originalText, [])
  chosen.2 ++ generate_snippet chosen.1 query (maxLength - chosen.2.length)

/-! ## Pages router (app/routers/pages.py) -/

/-- A stored page row as the routers create it. -/
structure PageRecord where
  book_id : Nat
  page_number : Nat
  original_text : Str
  embedding_vector : Option (List ℚ)
  page_image_url : Option Str
deriving DecidableEq, Repr

/-- The persistent state the page routers touch: the existing book ids and
the stored pages. -/
structure DbState where
  books : List Nat
  pages : List PageRecord
deriving DecidableEq, Repr

/-- An HTTPException raised by a router. -/
structure HttpErr where
  status : Nat
  detail : String
deriving DecidableEq, Repr

/-- The uniqueness invariant of the Page table: no two stored pages share
the (book_id, page_number) pair. -/
def pagesUnique (st : DbState) : Prop :=
  st.pages.Pairwise (fun a b => ¬(a.book_id = b.book_id ∧ a.page_number = b.page_number))

/-- create_page (routers/pages.py lines 19-76): 404 when the book does not
exist; 400 when a page with the same (book_id, page_number) already exists
for the book, checked BEFORE anything is persisted; otherwise the new page
is stored.  emb is the (already formatted) embedding produced for the
page text, none when embedding generation failed.  The result pairs the
router outcome with the resulting state; on an error the state is the
unchanged input state.  (The cover-image step of lines 70-74 cannot fire
on this path because a created page never carries a page image.) -/
def create_page (st : DbState) (bookId pageNumber : Nat) (text : Str)
    (emb : Option (List ℚ)) : Except HttpErr PageRecord × DbState :=
  if !(st.books.contains bookId) then
    (Except.error { status := 404, detail := "Book not found" }, st)
  else
    match st.pages.find? (fun p => p.book_id = bookId && p.page_number = pageNumber) with
    | some _ =>
        (Except.error { status := 400, detail := "Page number already exists for this book" }, st)
    | none =>
        let newPage : PageRecord :=
          { book_id := bookId, page_number := pageNumber, original_text := text,
            embedding_vector := emb, page_image_url := none }
        (Except.ok newPage, { st with pages := st.pages ++ [newPage] })

/-! ## Bulk upload (upload_files_bulk, routers/pages.py lines 200-390) -/

/-- An uploaded file as the router sees it: filename and declared
content type. -/
structure UploadedFile where
  filename : String
  content_type : String
deriving DecidableEq, Repr

/-- The content-type allow-list of upload_files_bulk (lines 236-238). -/
def allowed_types : List String :=
  ["application/pdf", "application/msword",
   "application/vnd.openxmlformats-officedocument.wordprocessingml.document",
   "text/plain"]

/-- Status of a per-file result entry. -/
inductive UploadStatus where
  | success
  | error
deriving DecidableEq, Repr

/-- One per-file entry of the bulk upload response. -/
structure UploadEntry where
  filename : String
  status : UploadStatus
  message : Option String
  pages_created : Option Nat
deriving DecidableEq, Repr

/-- One extracted page as process_bulk_text_upload returns it. -/
structure PageData where
  text : Str
  extraction_method : ExtractionMethod
deriving DecidableEq, Repr

/-- A Python exception propagating out of the per-file body. -/
inductive PyErr where
  | typeError (msg : String)
  | httpError (status : Nat) (detail : String)
  | other (msg : String)
deriving DecidableEq, Repr

/-- The message the per-file except-branch stores for an exception. -/
def pyErrMessage : PyErr → String
  | PyErr.typeError m => m
  | PyErr.httpError _ d => d
  | PyErr.other m => m

/-- Python positional-call semantics: applying a function that declares
declared parameters to given positional arguments raises TypeError unless
the counts agree; only then is the body entered. -/
def pyCallPositional (declared given : Nat) (f : Unit → Except PyErr α) : Except PyErr α :=
  if given = declared then f ()
  else Except.error (PyErr.typeError
    "process_bulk_text_upload takes 2 positional arguments but 3 were given")

/-- Number of parameters process_bulk_text_upload declares besides self:
(content, filename), file_service.py line 577. -/
def process_bulk_text_upload_params : Nat := 2

/-- Number of positional arguments the router passes besides self:
(file_content, file.filename, book_id), routers/pages.py lines 255-257. -/
def upload_call_site_args : Nat := 3

/-- The next page number for a book: one past the maximum stored
page_number for the book, 1 when the book has no pages (routers/pages.py
lines 268-269). -/
def next_page_number (st : DbState) (bookId : Nat) : Nat :=
  ((st.pages.filter (fun p => p.book_id = bookId)).foldl
    (fun m p => max m p.page_number) 0) + 1

/-- The per-file body of upload_files_bulk (lines 229-383).  extract is
the two-parameter service coroutine process_bulk_text_upload (outcome per
file, an exception or the extracted pages); embed is the embedding call
for one page text (none on failure; such a page is stored without a
vector).  A file with a content type outside the allow-list gets an error
entry without touching the state; otherwise the service is invoked
through the Python calling convention with the router's three positional
arguments, and any exception becomes this file's error entry with the
state rolled back to the input state. -/
def process_upload_file (extract : UploadedFile → Except PyErr (List PageData))
    (embed : Str → Option (List ℚ)) (st : DbState) (bookId : Nat)
    (f : UploadedFile) : UploadEntry × DbState :=
  if !(allowed_types.contains f.content_type) then
    ({ filename := f.filename, status := UploadStatus.error,
       message := some ("Unsupported file type: " ++ f.content_type),
       pages_created := none }, st)
  else
    match pyCallPositional process_bulk_text_upload_params upload_call_site_args
        (fun _ => extract f) with
    | Except.error e =>
        ({ filename := f.filename, status := UploadStatus.error,
           message := some (pyErrMessage e), pages_created := none }, st)
    | Except.ok pageDataList =>
        let startNum := next_page_number st bookId
        let newPages := pageDataList.enum.map (fun ip =>
          { book_id := bookId, page_number := startNum + ip.1,
            original_text := ip.2.text, embedding_vector := embed ip.2.text,
            page_image_url := none : PageRecord })
        ({ filename := f.filename, status := UploadStatus.success,
           message := none, pages_created := some pageDataList.length },
         { st with pages := st.pages ++ newPages })

/-- upload_files_bulk (routers/pages.py lines 200-390): 404 when the book
does not exist, else one result entry per uploaded file, accumulated left
to right while threading the database state. -/
def upload_files_bulk (extract : UploadedFile → Except PyErr (List PageData))
    (embed : Str → Option (List ℚ)) (st : DbState) (bookId : Nat)
    (files : List UploadedFile) : Except HttpErr (List UploadEntry × DbState) :=
  if !(st.books.contains bookId) then
    Except.error { status := 404, detail := "Book not found" }
  else
    Except.ok (files.foldl (fun acc f =>
      let r := process_upload_file extract embed acc.2 bookId f
      (acc.1 ++ [r.1], r.2)) ([], st))

/-! ## Helper lemmas -/

/-- The code's sequential falsification in has_meaningful_text computes the
same Boolean as the claim-shaped conjunction with the stripped-length
first condition. -/
theorem has_meaningful_eq_amended (t : Str) :
    has_meaningful_text t = amended_meaningful_text t := by
  by_cases h1 : stripLen t > 50 <;>
    by_cases h2 : 10 * (substantialLines (pyStrip t)).length <
        3 * (nonEmptyLines (pyStrip t)).length <;>
      by_cases h3 : (joinWith [' '] ((substantialLines (pyStrip t)).take 5)).length < 30 <;>
        (simp [has_meaningful_text, amended_meaningful_text, h1, h2, h3]; try omega)

/-- A page that passes the meaningful-text heuristic has more than 50
characters after stripping. -/
theorem meaningful_striplen (t : Str) (h : has_meaningful_text t = true) :
    50 < stripLen t := by
  by_cases h1 : stripLen t > 50
  · exact h1
  · rw [has_meaningful_eq_amended] at h
    simp [amended_meaningful_text, h1] at h

/-- A page that passes the meaningful-text heuristic has a non-empty
stripped text. -/
theorem meaningful_nonempty (t : Str) (h : has_meaningful_text t = true) :
    (pyStrip t).isEmpty = false := by
  have h50 := meaningful_striplen t h
  cases e : (pyStrip t).isEmpty
  · rfl
  · exfalso
    have : pyStrip t = [] := List.isEmpty_iff.mp e
    simp [stripLen, this] at h50

/-! ## C3 -/

/-- The C3 counterexample page text: 26 letters separated by single
spaces, 51 characters in total; its stripped length is 51 (more than 50)
but it has only 26 non-whitespace characters. -/
def c3_page : Str := (List.replicate 25 ['a', ' ']).flatten ++ ['a']

/-- C3 counterexample: on c3_page the code-side heuristic passes (len of
the stripped text is 51 > 50) and the page is emitted via text
extraction, while the claim-side heuristic (more than 50 NON-WHITESPACE
characters) fails, because the page has only 26 non-whitespace
characters.  So the claimed iff is false at this page. -/
theorem c3_counterexample :
    has_meaningful_text c3_page = true ∧
    (process_pdf_page [] id c3_page).map Prod.snd
        = some ExtractionMethod.text_extraction ∧
    claim_meaningful_text c3_page = false ∧
    countNonWs c3_page = 26 ∧
    stripLen c3_page = 51 := by decide

/-- C3 (amended): a PDF page is emitted by _process_pdf_with_smart_ocr via
text_extraction iff its raw text passes the amended heuristic — more than
50 characters AFTER STRIPPING leading/trailing whitespace, substantial
lines (length > 10) at least 30 percent of the non-empty lines, and the
first five substantial lines joined reaching 30 characters; a page
failing the heuristic is routed to OCR (emitted with method ocr or
dropped when OCR yields nothing usable). -/
theorem c3_extraction_selection (pageText : Str)
    (ocrAttempts : List (Option Str)) (clean : Str → Str) :
    ((process_pdf_page ocrAttempts clean pageText).map Prod.snd
        = some ExtractionMethod.text_extraction
      ↔ amended_meaningful_text pageText = true) ∧
    (amended_meaningful_text pageText = false →
      (process_pdf_page ocrAttempts clean pageText).map Prod.snd
          = some ExtractionMethod.ocr ∨
        process_pdf_page ocrAttempts clean pageText = none) := by
  rw [← has_meaningful_eq_amended]
  cases h : has_meaningful_text pageText with
  | true =>
      have hne := meaningful_nonempty pageText h
      constructor
      · simp [process_pdf_page, h, hne]
      · intro hfalse
        cases hfalse
  | false =>
      have hform : (process_pdf_page ocrAttempts clean pageText).map Prod.snd
            = some ExtractionMethod.ocr ∨
          process_pdf_page ocrAttempts clean pageText = none := by
        simp only [process_pdf_page, h, Bool.false_eq_true, if_false]
        split <;> try split
        all_goals first | (left; rfl) | (right; rfl)
      refine ⟨⟨fun habs => ?_, fun habs => by cases habs⟩, fun _ => hform⟩
      rcases hform with hocr | hnone
      · rw [habs] at hocr
        cases hocr
      · rw [hnone] at habs
        cases habs

/-! ## C4 -/

/-- The loop of _process_pdf_with_smart_ocr computes, for any starting
accumulator consistent with its stripped length and not yet past the
early-stop mark, the fold of the keep-the-longer-stripped-text step over
the attempts run before the early stop. -/
theorem ocr_loopB_eq_fold (attempts : List (Option Str)) :
    ∀ best bl, bl = stripLen best → bl ≤ 100 →
      ocr_attempt_loopB attempts best bl =
        (successTexts (attemptsUntilStop attempts)).foldl
          (fun acc t => if stripLen t > stripLen acc then t else acc) best := by
  induction attempts with
  | nil => intro best bl _ _; rfl
  | cons a rest ih =>
      intro best bl hbl hle
      subst hbl
      cases a with
      | none =>
          simp only [ocr_attempt_loopB, attemptsUntilStop, successTexts]
          exact ih best _ rfl hle
      | some t =>
          simp only [ocr_attempt_loopB, attemptsUntilStop]
          split_ifs with h1 h2 h3
          · simp only [successTexts, List.foldl_cons, List.foldl_nil]
            rw [if_pos h1]
          · simp only [successTexts, List.foldl_cons]
            rw [if_pos h1]
            exact ih t _ rfl (by omega)
          · exfalso; omega
          · simp only [successTexts, List.foldl_cons]
            rw [if_neg h1]
            exact ih best _ rfl hle

/-- Same statement for the loop of _extract_text_with_ocr. -/
theorem ocr_loopA_eq_fold (attempts : List (Option Str)) :
    ∀ best bl, bl = stripLen best → bl ≤ 100 →
      ocr_attempt_loopA attempts best bl =
        (successTexts (attemptsUntilStop attempts)).foldl
          (fun acc t => if stripLen t > stripLen acc then t else acc) best := by
  induction attempts with
  | nil => intro best bl _ _; rfl
  | cons a rest ih =>
      intro best bl hbl hle
      subst hbl
      cases a with
      | none =>
          simp only [ocr_attempt_loopA, attemptsUntilStop, successTexts]
          exact ih best _ rfl hle
      | some t =>
          simp only [ocr_attempt_loopA, attemptsUntilStop]
          split_ifs with h1 h2 h3
          · simp only [successTexts, List.foldl_cons, List.foldl_nil]
            rw [if_pos h2]
          · exfalso; omega
          · simp only [successTexts, List.foldl_cons]
            rw [if_pos h3]
            exact ih t _ rfl (by omega)
          · simp only [successTexts, List.foldl_cons]
            rw [if_neg h3]
            exact ih best _ rfl hle

/-- C4 counterexample text 1: 51 letters separated by single spaces, 101
characters, stripped length 101 (triggers the early stop in the code) but
only 51 non-whitespace characters (the claim would continue). -/
def c4_s1 : Str := (List.replicate 50 ['a', ' ']).flatten ++ ['a']

/-- C4 counterexample text 2: 200 letters, longer than c4_s1 in both
measures. -/
def c4_s2 : Str := List.replicate 200 'b'

set_option maxRecDepth 20000

/-- C4 counterexample: with attempts yielding c4_s1 then c4_s2, both code
loops stop after the first attempt (stripped length 101 > 100) and return
c4_s1, while the loop described by the claim — measuring in non-whitespace
characters — would continue (51 <= 100) and return c4_s2.  So measuring
"longest" and the early-stop mark in non-whitespace characters does not
match the code. -/
theorem c4_counterexample :
    ocr_attempt_loopB [some c4_s1, some c4_s2] [] 0 = c4_s1 ∧
    ocr_attempt_loopA [some c4_s1, some c4_s2] [] 0 = c4_s1 ∧
    claim_ocr_loop [some c4_s1, some c4_s2] [] 0 = c4_s2 ∧
    countNonWs c4_s1 = 51 ∧ stripLen c4_s1 = 101 ∧ c4_s1 ≠ c4_s2 := by decide

/-- C4 (amended): both OCR attempt loops try the configurations in order,
keep the longest result by STRIPPED length (leading/trailing whitespace
discarded, internal whitespace counted), stop as soon as an attempt's
stripped length exceeds 100, and return the best result seen at the point
of stopping: the first maximal-stripped-length successful text among the
attempts run before the early stop. -/
theorem c4_ocr_best_of_n (attempts : List (Option Str)) :
    ocr_attempt_loopA attempts [] 0 = spec_ocr_best attempts ∧
    ocr_attempt_loopB attempts [] 0 = spec_ocr_best attempts :=
  ⟨ocr_loopA_eq_fold attempts [] 0 rfl (by omega),
   ocr_loopB_eq_fold attempts [] 0 rfl (by omega)⟩

/-! ## C5 -/

/-- C5 counterexample: with the OpenAI provider configured for dimension
3, a provider vector of 2 elements is not right-padded with 0.0 — the
call fails and returns no vector at all. -/
theorem c5_counterexample :
    generate_embedding Provider.openai 3 ['a', 'b'] (some [(1 : ℚ), 2]) = none ∧
    generate_embedding Provider.openai 3 ['a', 'b'] (some [(1 : ℚ), 2])
        ≠ some [(1 : ℚ), 2, 0] := by decide

/-- C5 (amended): every successful embed call returns exactly dim
elements; the GEMINI branch right-pads a shorter provider vector with 0.0
and truncates a longer one to the first dim elements, while the OPENAI
branch rejects any provider vector whose length differs from dim (the
call fails and returns no vector). -/
theorem c5_embedding_dimension :
    (∀ prov dim t raw v, generate_embedding prov dim t raw = some v →
      v.length = dim) ∧
    (∀ dim t e, (cleanEmbedText t).isEmpty = false → e.length < dim →
      generate_embedding Provider.gemini dim t (some e)
        = some (e ++ List.replicate (dim - e.length) 0)) ∧
    (∀ dim t e, (cleanEmbedText t).isEmpty = false → dim < e.length →
      generate_embedding Provider.gemini dim t (some e) = some (e.take dim)) ∧
    (∀ dim t e, e.length ≠ dim →
      generate_embedding Provider.openai dim t (some e) = none) := by
  refine ⟨?_, ?_, ?_, ?_⟩
  · intro prov dim t raw v h
    unfold generate_embedding at h
    split_ifs at h
    cases prov with
    | openai =>
        unfold generate_openai_embedding at h
        cases raw with
        | none => cases h
        | some e =>
            simp only at h
            split_ifs at h with hlen
            · cases h; omega
    | gemini =>
        unfold generate_gemini_embedding at h
        cases raw with
        | none => cases h
        | some e =>
            simp only at h
            split_ifs at h with hlen
            · cases h
              simp [List.length_append, List.length_replicate]
              omega
            · cases h
              simp [List.length_take]
              omega
  · intro dim t e hne hlt
    simp [generate_embedding, generate_gemini_embedding, hne, hlt]
  · intro dim t e hne hgt
    simp [generate_embedding, generate_gemini_embedding, hne]
    omega
  · intro dim t e hne
    by_cases hne2 : (cleanEmbedText t).isEmpty
    · simp [generate_embedding, hne2]
    · simp [generate_embedding, generate_openai_embedding, hne2, hne]

/-- C5 witness: for dimension 3 the Gemini branch pads the 2-element
provider vector to exactly 3 elements. -/
theorem c5_embedding_dimension_witness :
    generate_embedding Provider.gemini 3 ['a', 'b'] (some [(1 : ℚ), 2])
        = some [(1 : ℚ), 2, 0] ∧
    ([(1 : ℚ), 2, 0] : List ℚ).length = 3 := by
  have h1 := c5_embedding_dimension.2.1 3 ['a', 'b'] [(1 : ℚ), 2]
    (by decide) (by decide)
  have h2 : generate_embedding Provider.gemini 3 ['a', 'b'] (some [(1 : ℚ), 2])
      = some [(1 : ℚ), 2, 0] := by
    rw [h1]; rfl
  exact ⟨h2, c5_embedding_dimension.1 Provider.gemini 3 ['a', 'b']
    (some [(1 : ℚ), 2]) [(1 : ℚ), 2, 0] h2⟩

/-! ## C6 -/

/-- C6 counterexample: a whitespace-only English translation is a
NON-EMPTY string, yet the code does not snippet from it — the condition
is en_translation and en_translation.strip(), so a blank translation
falls through and the snippet comes from the original text with no
marker.  The query "the cat" is auto-detected as English (1 of 2 words is
a stop word, ratio 0.5 > 0.2). -/
theorem c6_counterexample :
    is_english ("the cat".toList) = true ∧
    (some [' '] : Option Str) ≠ none ∧ ([' '] : Str) ≠ [] ∧
    generate_multilingual_snippet ("orig".toList) (some [' ']) none
        ("the cat".toList) none = ("orig".toList) := by decide

/-- C6 (amended): for a query declared as English (query_language en) or
auto-detected as English (no declared language and stop-word ratio above
0.2), the snippet is generated from the English translation prefixed with
the marker when that translation is non-blank (non-empty after stripping
whitespace); when it is blank or missing and the Indonesian translation
is non-blank, from the Indonesian translation with its marker; otherwise
from the original text with no marker. -/
theorem c6_multilingual_snippet (originalText : Str) (enT idT : Option Str)
    (query : Str) (qlang : Option Str)
    (hEn : qlang = some ['e', 'n'] ∨ (qlang = none ∧ is_english query = true)) :
    (translationUsable enT = true →
      generate_multilingual_snippet originalText enT idT query qlang
        = ['[', 'E', 'N', ']', ' '] ++ generate_snippet (enT.getD []) query 195) ∧
    (translationUsable enT = false → translationUsable idT = true →
      generate_multilingual_snippet originalText enT idT query qlang
        = ['[', 'I', 'D', ']', ' '] ++ generate_snippet (idT.getD []) query 195) ∧
    (translationUsable enT = false → translationUsable idT = false →
      generate_multilingual_snippet originalText enT idT query qlang
        = generate_snippet originalText query 200) := by
  refine ⟨?_, ?_, ?_⟩
  · intro hU
    rcases hEn with h | ⟨h1, h2⟩
    · simp [generate_multilingual_snippet, h, hU]
    · simp [generate_multilingual_snippet, h1, h2, hU]
  · intro hU1 hU2
    rcases hEn with h | ⟨h1, h2⟩
    · simp [generate_multilingual_snippet, h, hU1, hU2]
    · simp [generate_multilingual_snippet, h1, h2, hU1, hU2]
  · intro hU1 hU2
    rcases hEn with h | ⟨h1, h2⟩
    · simp [generate_multilingual_snippet, h, hU1, hU2]
    · simp [generate_multilingual_snippet, h1, h2, hU1, hU2]

/-- C6 witness: a page with a usable English translation and the
English-classified query "the cat" gets its snippet from the English
translation, prefixed with the EN marker. -/
theorem c6_multilingual_snippet_witness :
    generate_multilingual_snippet ("orig arabic".toList)
        (some ("hello world".toList)) none ("the cat".toList) none
      = ['[', 'E', 'N', ']', ' ']
          ++ generate_snippet ("hello world".toList) ("the cat".toList) 195 := by
  exact (c6_multilingual_snippet ("orig arabic".toList)
    (some ("hello world".toList)) none ("the cat".toList) none
    (Or.inr ⟨rfl, by decide⟩)).1 (by decide)

/-! ## C7 -/

/-- A stripped candidate is kept by the code's condition (non-empty and
longer than 10) exactly when its length is not at most 10. -/
theorem keep_cond_eq (c : Str) :
    (!c.isEmpty && decide (c.length > 10)) = !decide (c.length ≤ 10) := by
  by_cases h : c.length ≤ 10
  · have h2 : ¬ c.length > 10 := by omega
    simp [h, h2]
  · have hgt : c.length > 10 := by omega
    have he : c.isEmpty = false := by
      cases e : c.isEmpty
      · rfl
      · rw [List.isEmpty_iff.mp e] at hgt
        simp at hgt
    simp [h, hgt, he]

/-- A filterMap with an if-guard returning a mapped element is the map
over the filtered list. -/
theorem filterMap_guard_eq (g : Str → Str) (p : Str → Bool) (l : List Str) :
    (l.filterMap fun x => if p x then some (g x) else none)
      = (l.filter p).map g := by
  induction l with
  | nil => rfl
  | cons a l ih =>
      cases h : p a <;> simp [List.filterMap_cons, List.filter_cons, h, ih]

/-- The code's filterMap over candidates equals stripping every candidate
and filtering out the ones of length at most 10. -/
theorem strip_filterMap_eq_filter (l : List Str) :
    (l.filterMap fun p =>
      if !(pyStrip p).isEmpty && decide ((pyStrip p).length > 10)
      then some (pyStrip p) else none)
      = (l.map pyStrip).filter (fun c => !decide (c.length ≤ 10)) := by
  refine Eq.trans (filterMap_guard_eq pyStrip
    (fun x => !(pyStrip x).isEmpty && decide ((pyStrip x).length > 10)) l) ?_
  rw [List.filter_map]
  exact congrArg _ (List.filter_congr (fun x _ => keep_cond_eq (pyStrip x)))

/-- C7: the page list of a plain-text or markdown upload is obtained by
splitting on exactly the first applicable rule of the priority order
(triple newline, form feed, double newline, 1000-character chunks) and
discarding every candidate whose trimmed length is at most 10; every
returned page is longer than 10 characters. -/
theorem c7_text_page_split (t : Str) :
    process_text_pages t = claim_text_pages t ∧
    ∀ p ∈ process_text_pages t, 10 < p.length := by
  have heq : process_text_pages t = claim_text_pages t := by
    unfold process_text_pages claim_text_pages splitPageCandidates
    exact strip_filterMap_eq_filter _
  refine ⟨heq, ?_⟩
  intro p hp
  rw [heq] at hp
  unfold claim_text_pages at hp
  have hmem := List.mem_filter.mp hp
  have := hmem.2
  simp at this
  omega

/-- C7 witness: a concrete three-part text with a short middle part keeps
exactly the two long parts, and the first kept page is longer than 10
characters. -/
theorem c7_text_page_split_witness :
    process_text_pages ("first page text here\n\n\nshort\n\n\nsecond page long enough".toList)
        = claim_text_pages ("first page text here\n\n\nshort\n\n\nsecond page long enough".toList) ∧
    10 < ("first page text here".toList).length := by
  refine ⟨(c7_text_page_split _).1, ?_⟩
  exact (c7_text_page_split
    ("first page text here\n\n\nshort\n\n\nsecond page long enough".toList)).2
    ("first page text here".toList) (by decide)

/-! ## C8 -/

/-- C8: creating a page whose (book_id, page_number) pair already exists
for the book is rejected with the 400 conflict error before anything is
persisted, the stored pages are unchanged, and create_page preserves the
per-book page_number uniqueness invariant on any input. -/
theorem c8_duplicate_page_rejected (st : DbState) (bookId pageNumber : Nat)
    (text : Str) (emb : Option (List ℚ)) :
    (st.books.contains bookId = true →
      (∃ p ∈ st.pages, p.book_id = bookId ∧ p.page_number = pageNumber) →
      (create_page st bookId pageNumber text emb).1
          = Except.error { status := 400, detail := "Page number already exists for this book" } ∧
      (create_page st bookId pageNumber text emb).2 = st) ∧
    (pagesUnique st → pagesUnique (create_page st bookId pageNumber text emb).2) := by
  constructor
  · rintro hb ⟨p, hp, hbid, hpn⟩
    have hfind : st.pages.find?
        (fun q => q.book_id = bookId && q.page_number = pageNumber) ≠ none := by
      intro hnone
      have := List.find?_eq_none.mp hnone p hp
      simp [hbid, hpn] at this
    unfold create_page
    rw [hb]
    cases hfind2 : st.pages.find?
        (fun q => q.book_id = bookId && q.page_number = pageNumber) with
    | none => exact absurd hfind2 hfind
    | some q => simp [hfind2]
  · intro hu
    unfold create_page
    by_cases hb : st.books.contains bookId
    · rw [hb]
      cases hfind2 : st.pages.find?
          (fun q => q.book_id = bookId && q.page_number = pageNumber) with
      | none =>
          simp only [Bool.not_true, Bool.false_eq_true, if_false]
          unfold pagesUnique
          simp only
          rw [List.pairwise_append]
          refine ⟨hu, List.pairwise_singleton _ _, ?_⟩
          intro a ha b hbmem
          rw [List.mem_singleton] at hbmem
          subst hbmem
          intro hcon
          exact (List.find?_eq_none.mp hfind2 a ha)
            (by simp [hcon.1, hcon.2])
      | some q =>
          simpa using hu
    · have hb2 : st.books.contains bookId = false := by
        cases e : st.books.contains bookId
        · rfl
        · exact absurd e hb
      rw [hb2]
      simpa using hu

/-- The stored page of the C8 witness state: book 1, page 1. -/
def c8_page0 : PageRecord :=
  { book_id := 1, page_number := 1, original_text := [],
    embedding_vector := none, page_image_url := none }

/-- The C8 witness state: book 1 exists and already has page 1. -/
def c8_state : DbState := { books := [1], pages := [c8_page0] }

/-- C8 witness: with one stored page (book 1, page 1), creating book 1
page 1 again yields the 400 conflict and leaves the state unchanged. -/
theorem c8_duplicate_page_rejected_witness :
    (create_page c8_state 1 1 ['x'] none).1
      = Except.error { status := 400, detail := "Page number already exists for this book" } ∧
    (create_page c8_state 1 1 ['x'] none).2 = c8_state := by
  exact (c8_duplicate_page_rejected c8_state 1 1 ['x'] none).1 (by decide)
    ⟨c8_page0, by simp [c8_state, c8_page0], rfl, rfl⟩

/-! ## C2 -/

/-- First file of the C2 failing batch: a supported plain-text file. -/
def c2_file1 : UploadedFile := { filename := "chapter1.txt", content_type := "text/plain" }

/-- Second file of the C2 failing batch: an unsupported image type. -/
def c2_file2 : UploadedFile := { filename := "scan.png", content_type := "image/png" }

/-- Third file of the C2 failing batch: a supported plain-text file. -/
def c2_file3 : UploadedFile := { filename := "chapter2.txt", content_type := "text/plain" }

/-- The C2 state: book 1 exists with no pages. -/
def c2_state : DbState := { books := [1], pages := [] }

/-- An extraction service that succeeds with one extracted page, showing
the per-file failures below are not the extractor's doing. -/
def c2_extract : UploadedFile → Except PyErr (List PageData) := fun _ =>
  Except.ok [{ text := ['h', 'i', ' ', 't', 'h', 'e', 'r', 'e'],
               extraction_method := ExtractionMethod.text_extraction }]

/-- The error entry the arity mismatch produces for a supported file. -/
def c2_arity_entry (name : String) : UploadEntry :=
  { filename := name, status := UploadStatus.error,
    message := some "process_bulk_text_upload takes 2 positional arguments but 3 were given",
    pages_created := none }

/-- C2, evaluated at the failing input: the bulk upload of a 3-file batch
whose second file has an unsupported type does return exactly 3 per-file
entries, and the unsupported file gets its per-file error entry; but
files 1 and 3 do NOT succeed — the router calls
process_bulk_text_upload(file_content, file.filename, book_id) with three
positional arguments while the service declares only (content, filename),
so every supported file raises TypeError and gets an error entry, and no
pages are ever stored.  The claim's per-entry and error-isolation parts
hold, but the success of the supported files does not. -/
theorem c2_bulk_upload_failing_input :
    upload_files_bulk c2_extract (fun _ => none) c2_state 1
        [c2_file1, c2_file2, c2_file3]
      = Except.ok ([c2_arity_entry "chapter1.txt",
          { filename := "scan.png", status := UploadStatus.error,
            message := some "Unsupported file type: image/png",
            pages_created := none },
          c2_arity_entry "chapter2.txt"], c2_state) := by rfl

/-! ## C9 -/

/-- C9: none of the four search operations propagates a failure: a raised
database error or a failed query embedding gives the empty result list
(with total 0 for multilingual_search), and get_similar_pages returns the
empty list when the reference page is absent or has no stored vector.  (In
the embedding every operation is a total function, so no exception can
escape; the conjuncts show each failure input maps to the empty result.) -/
theorem c9_search_never_raises (df : DistFn) (dbF : DbFetch (List PageRow))
    (rows : List PageRow) (msg : Str) (qE : Option (List ℚ)) (query : Str)
    (lim off : Option Nat) (thr : Option ℚ) (pid n : Nat) :
    semantic_search df (DbFetch.err msg) qE lim thr = [] ∧
    semantic_search df dbF none lim thr = [] ∧
    multilingual_search df (DbFetch.err msg) qE lim off thr = ([], 0) ∧
    multilingual_search df dbF none lim off thr = ([], 0) ∧
    text_search (DbFetch.err msg) query lim = [] ∧
    get_similar_pages df (DbFetch.err msg) pid n = [] ∧
    (rows.find? (fun p => p.page_id = pid) = none →
      get_similar_pages df (DbFetch.ok rows) pid n = []) ∧
    (∀ refPage, rows.find? (fun p => p.page_id = pid) = some refPage →
      refPage.embedding_vector = none →
      get_similar_pages df (DbFetch.ok rows) pid n = []) := by
  refine ⟨?_, ?_, ?_, ?_, rfl, rfl, ?_, ?_⟩
  · cases qE <;> rfl
  · cases dbF <;> rfl
  · cases qE <;> rfl
  · cases dbF <;> rfl
  · intro hfind
    simp [get_similar_pages, hfind]
  · intro refPage hfind hvec
    simp [get_similar_pages, hfind, hvec]

/-- C9 witness: on an empty page store the reference page is absent and
get_similar_pages returns the empty list; a database error also yields
the empty semantic result. -/
theorem c9_search_never_raises_witness :
    get_similar_pages (fun _ _ => 0) (DbFetch.ok []) 7 5 = [] ∧
    semantic_search (fun _ _ => 0) (DbFetch.err []) (some [1]) none none = [] := by
  refine ⟨?_, ?_⟩
  · exact (c9_search_never_raises (fun _ _ => 0) (DbFetch.ok []) [] []
      (some [1]) [] none none none 7 5).2.2.2.2.2.2.1 rfl
  · exact (c9_search_never_raises (fun _ _ => 0) (DbFetch.err []) [] []
      (some [1]) [] none none none 7 5).1

/-! ## C10 -/

/-- C10: in semantic_search, multilingual_search and text_search a
caller-supplied limit of 0 or similarity threshold of 0.0 is falsy under
the Python x or default idiom and is replaced by the default (limit 10;
threshold 0.7 for semantic, 0.6 for multilingual; offset 0), so a zero
limit or zero threshold never takes effect: each call behaves exactly as
the call with the argument unspecified. -/
theorem c10_falsy_zero_defaults (df : DistFn) (dbF : DbFetch (List PageRow))
    (qE : Option (List ℚ)) (query : Str) (lim off : Option Nat)
    (thr : Option ℚ) :
    semantic_search df dbF qE (some 0) thr = semantic_search df dbF qE none thr ∧
    semantic_search df dbF qE lim (some 0) = semantic_search df dbF qE lim none ∧
    multilingual_search df dbF qE (some 0) off thr
        = multilingual_search df dbF qE none off thr ∧
    multilingual_search df dbF qE lim off (some 0)
        = multilingual_search df dbF qE lim off none ∧
    text_search dbF query (some 0) = text_search dbF query none ∧
    pyOrNat (some 0) 10 = 10 ∧
    pyOrRat (some 0) ((7 : ℚ) / 10) = (7 : ℚ) / 10 ∧
    pyOrRat (some 0) ((3 : ℚ) / 5) = (3 : ℚ) / 5 := by
  refine ⟨rfl, ?_, rfl, ?_, rfl, rfl, ?_, ?_⟩
  · simp [semantic_search, pyOrRat]
  · simp [multilingual_search, pyOrRat]
  · simp [pyOrRat]
  · simp [pyOrRat]

/-! ## C1 -/

/-- C1: for a query whose embedding generation succeeded, semantic_search
returns only stored pages with a non-null embedding vector and similarity
(1 minus the store's cosine distance) at least the threshold (default 0.7
via the Python or-idiom when unspecified), in descending-similarity
order; the result length is the qualifying count capped at the limit
(default 10); every qualifying page left out scores no higher than every
returned page; and when the qualifying pages fit in the limit the result
is exactly the qualifying set. -/
theorem c1_semantic_search_spec (df : DistFn) (rows : List PageRow)
    (qv : List ℚ) (limit : Option Nat) (thr : Option ℚ) :
    (∀ p ∈ semantic_search df (DbFetch.ok rows) (some qv) limit thr,
      p ∈ rows ∧ p.embedding_vector.isSome = true ∧
        pyOrRat thr ((7 : ℚ) / 10) ≤ simScore df qv p) ∧
    List.Sorted (fun a b => simScore df qv b ≤ simScore df qv a)
      (semantic_search df (DbFetch.ok rows) (some qv) limit thr) ∧
    (semantic_search df (DbFetch.ok rows) (some qv) limit thr).length
      = min (pyOrNat limit 10)
          (rows.filter (qualifies df qv (pyOrRat thr ((7 : ℚ) / 10)))).length ∧
    (∀ p ∈ rows.filter (qualifies df qv (pyOrRat thr ((7 : ℚ) / 10))),
      p ∉ semantic_search df (DbFetch.ok rows) (some qv) limit thr →
      ∀ q ∈ semantic_search df (DbFetch.ok rows) (some qv) limit thr,
        simScore df qv p ≤ simScore df qv q) ∧
    ((rows.filter (qualifies df qv (pyOrRat thr ((7 : ℚ) / 10)))).length
        ≤ pyOrNat limit 10 →
      (semantic_search df (DbFetch.ok rows) (some qv) limit thr).Perm
        (rows.filter (qualifies df qv (pyOrRat thr ((7 : ℚ) / 10))))) := by
  haveI : IsTotal PageRow (fun a b => rowDist df qv a ≤ rowDist df qv b) :=
    ⟨fun a b => le_total _ _⟩
  haveI : IsTrans PageRow (fun a b => rowDist df qv a ≤ rowDist df qv b) :=
    ⟨fun _ _ _ hab hbc => le_trans hab hbc⟩
  have hsem : semantic_search df (DbFetch.ok rows) (some qv) limit thr
      = (List.insertionSort (fun a b => rowDist df qv a ≤ rowDist df qv b)
          (rows.filter (qualifies df qv (pyOrRat thr ((7 : ℚ) / 10))))).take
            (pyOrNat limit 10) := rfl
  have hsorted := List.sorted_insertionSort
    (fun a b => rowDist df qv a ≤ rowDist df qv b)
    (rows.filter (qualifies df qv (pyOrRat thr ((7 : ℚ) / 10))))
  have hsub := List.take_sublist (pyOrNat limit 10)
    (List.insertionSort (fun a b => rowDist df qv a ≤ rowDist df qv b)
      (rows.filter (qualifies df qv (pyOrRat thr ((7 : ℚ) / 10)))))
  refine ⟨?_, ?_, ?_, ?_, ?_⟩
  · intro p hp
    rw [hsem] at hp
    have hpS := hsub.mem hp
    have hpm := (List.mem_insertionSort _).mp hpS
    have hpf := List.mem_filter.mp hpm
    have h2 := hpf.2
    unfold qualifies at h2
    rw [Bool.and_eq_true] at h2
    exact ⟨hpf.1, h2.1, of_decide_eq_true h2.2⟩
  · rw [hsem]
    have hst := List.Pairwise.sublist hsub hsorted
    exact hst.imp (fun hab => by
      unfold simScore
      linarith)
  · rw [hsem, List.length_take, List.length_insertionSort]
  · intro p hpm hpnot q hq
    rw [hsem] at hpnot hq
    have hpS : p ∈ List.insertionSort
        (fun a b => rowDist df qv a ≤ rowDist df qv b)
        (rows.filter (qualifies df qv (pyOrRat thr ((7 : ℚ) / 10)))) :=
      (List.mem_insertionSort _).mpr hpm
    have hsplit : p ∈
        (List.insertionSort (fun a b => rowDist df qv a ≤ rowDist df qv b)
          (rows.filter (qualifies df qv (pyOrRat thr ((7 : ℚ) / 10))))).take
            (pyOrNat limit 10) ++
        (List.insertionSort (fun a b => rowDist df qv a ≤ rowDist df qv b)
          (rows.filter (qualifies df qv (pyOrRat thr ((7 : ℚ) / 10))))).drop
            (pyOrNat limit 10) := by
      rwa [List.take_append_drop]
    have hdrop := (List.mem_append.mp hsplit).resolve_left hpnot
    have hpair : List.Pairwise (fun a b => rowDist df qv a ≤ rowDist df qv b)
        ((List.insertionSort (fun a b => rowDist df qv a ≤ rowDist df qv b)
          (rows.filter (qualifies df qv (pyOrRat thr ((7 : ℚ) / 10))))).take
            (pyOrNat limit 10) ++
        (List.insertionSort (fun a b => rowDist df qv a ≤ rowDist df qv b)
          (rows.filter (qualifies df qv (pyOrRat thr ((7 : ℚ) / 10))))).drop
            (pyOrNat limit 10)) := by
      rwa [List.take_append_drop]
    have hrel := (List.pairwise_append.mp hpair).2.2 q hq p hdrop
    unfold simScore
    linarith
  · intro hlen
    rw [hsem]
    have hlen2 : (List.insertionSort
        (fun a b => rowDist df qv a ≤ rowDist df qv b)
        (rows.filter (qualifies df qv (pyOrRat thr ((7 : ℚ) / 10))))).length
          ≤ pyOrNat limit 10 := by
      rwa [List.length_insertionSort]
    rw [List.take_of_length_le hlen2]
    exact List.perm_insertionSort _ _

/-- The C1 witness distance operator: the distance is the head entry of
the page vector, so the three witness rows below have distances 0.1, 0.5
and (no vector). -/
def c1_df : DistFn := fun v _ => v.headI

/-- C1 witness row with similarity 0.9. -/
def c1_row1 : PageRow :=
  { page_id := 1, book_id := 1, page_number := 1, original_text := [],
    en_translation := none, id_translation := none,
    embedding_vector := some [(1 : ℚ) / 10] }

/-- C1 witness row with similarity 0.5, below the default threshold. -/
def c1_row2 : PageRow :=
  { page_id := 2, book_id := 1, page_number := 2, original_text := [],
    en_translation := none, id_translation := none,
    embedding_vector := some [(1 : ℚ) / 2] }

/-- C1 witness row with no stored vector. -/
def c1_row3 : PageRow :=
  { page_id := 3, book_id := 1, page_number := 3, original_text := [],
    en_translation := none, id_translation := none,
    embedding_vector := none }

/-- The C1 witness page store. -/
def c1_rows : List PageRow := [c1_row1, c1_row2, c1_row3]

/-- C1 witness: with defaults unspecified, the returned row is a stored
page with a present vector and similarity at least 0.7, and the result
has exactly the one qualifying row. -/
theorem c1_semantic_search_spec_witness :
    (c1_row1 ∈ c1_rows ∧ c1_row1.embedding_vector.isSome = true ∧
      (7 : ℚ) / 10 ≤ simScore c1_df [0] c1_row1) ∧
    (semantic_search c1_df (DbFetch.ok c1_rows) (some [0]) none none).length = 1 := by
  have q1 : qualifies c1_df [0] (pyOrRat none ((7 : ℚ) / 10)) c1_row1 = true := by
    simp [qualifies, simScore, rowDist, c1_df, c1_row1, pyOrRat]
    norm_num
  have q2 : qualifies c1_df [0] (pyOrRat none ((7 : ℚ) / 10)) c1_row2 = false := by
    simp [qualifies, simScore, rowDist, c1_df, c1_row2, pyOrRat]
    norm_num
  have q3 : qualifies c1_df [0] (pyOrRat none ((7 : ℚ) / 10)) c1_row3 = false := by
    simp [qualifies, c1_row3]
  have hfilter : c1_rows.filter (qualifies c1_df [0] (pyOrRat none ((7 : ℚ) / 10)))
      = [c1_row1] := by
    simp [c1_rows, List.filter_cons, q1, q2, q3]
  have hsearch : semantic_search c1_df (DbFetch.ok c1_rows) (some [0]) none none
      = [c1_row1] := by
    have hsem : semantic_search c1_df (DbFetch.ok c1_rows) (some [0]) none none
        = (List.insertionSort
            (fun a b => rowDist c1_df [0] a ≤ rowDist c1_df [0] b)
            (c1_rows.filter (qualifies c1_df [0] (pyOrRat none ((7 : ℚ) / 10))))).take
              (pyOrNat none 10) := rfl
    rw [hsem, hfilter]
    rfl
  constructor
  · exact (c1_semantic_search_spec c1_df c1_rows [0] none none).1 c1_row1
      (by rw [hsearch]; exact List.mem_singleton.mpr rfl)
  · rw [hsearch]
    rfl

end Searchku
